import Mathlib

/-!
# lexRain — verification of the spaced-repetition core

Shallow embedding of the lexRain vocabulary trainer's core, translated from
the Rust sources:

* `src/sm2.rs`    — the SuperMemo-2 scheduler (`update_memory_state`,
  `process_review`);
* `src/models.rs` — the data model (`LearningLog`, `LearningStatus`);
* `src/components/review.rs` — the review-session state machine
  (`ReviewComponent`);
* `src/app.rs`    — the legacy application driver (`App.submit_review`).

Modelling conventions: Rust `i32`/`i64` become `ℤ`, `u8` becomes `ℕ`,
`f64` becomes `ℚ` (real-valued formulas taken exactly), `usize` becomes `ℕ`,
`DateTime<Utc>` becomes an `ℤ` timestamp in seconds with `Utc::now()` passed
in explicitly, and fallible database calls take explicit success flags and
return the outcome alongside the mutated state.
-/

namespace LexRain

/-- Rust `f64::round`: rounds to the nearest integer, ties away from zero. -/
def rustRound (x : ℚ) : ℤ :=
  if x < 0 then -⌊-x + 1/2⌋ else ⌊x + 1/2⌋

/-- `LearningStatus` from `src/models.rs` (`New = 0`, `Learning = 1`,
`Mastered = 2`). -/
inductive LearningStatus where
  | New
  | Learning
  | Mastered
deriving DecidableEq, Repr

/-- `impl From<LearningStatus> for i32` from `src/models.rs`. -/
def LearningStatus.toInt : LearningStatus → ℤ
  | .New => 0
  | .Learning => 1
  | .Mastered => 2

/-- `impl From<i32> for LearningStatus` from `src/models.rs`: `1 ↦ Learning`,
`2 ↦ Mastered`, anything else `↦ New`. -/
def LearningStatus.ofInt (value : ℤ) : LearningStatus :=
  if value = 1 then .Learning
  else if value = 2 then .Mastered
  else .New

/-- `Word` from `src/models.rs`. Only `id` is ever read by the core
(`word.id.unwrap()` in `submit_review`); the display-only fields (spelling,
phonetic, definition, …) are opaque to the scheduler and session logic and are
collapsed into `display`. -/
structure Word where
  id : Option ℤ
  display : String
deriving DecidableEq, Repr

/-- `LearningLog` from `src/models.rs`. `next_review` is a Unix timestamp in
seconds. -/
structure LearningLog where
  word_id : ℤ
  repetition : ℤ
  interval : ℤ
  e_factor : ℚ
  next_review : ℤ
  status : LearningStatus
deriving DecidableEq, Repr

/-- `update_memory_state` from `src/sm2.rs`: the SuperMemo-2 update.

```rust
if quality >= 3 {
    if current_repetition == 0 { next_interval = 1; }
    else if current_repetition == 1 { next_interval = 6; }
    else { next_interval = (current_repetition as f64 * current_ef).round() as i32; }
    next_repetition += 1;
} else {
    next_repetition = 0;
    next_interval = 1;
}
let mut next_ef = current_ef + (0.1 - (5.0 - quality as f64) * (0.08 + (5.0 - quality as f64) * 0.02));
if next_ef < 1.3 { next_ef = 1.3; }
```
Returns `(next_repetition, next_interval, next_ef)`. -/
def update_memory_state (current_repetition : ℤ) (current_ef : ℚ) (quality : ℕ) :
    ℤ × ℤ × ℚ :=
  let ri : ℤ × ℤ :=
    if 3 ≤ quality then
      let next_interval : ℤ :=
        if current_repetition = 0 then 1
        else if current_repetition = 1 then 6
        else rustRound ((current_repetition : ℚ) * current_ef)
      (current_repetition + 1, next_interval)
    else
      (0, 1)
  let next_ef : ℚ :=
    current_ef + (1/10 - (5 - (quality : ℚ)) * (2/25 + (5 - (quality : ℚ)) * (1/50)))
  let next_ef := if next_ef < 13/10 then 13/10 else next_ef
  (ri.1, ri.2, next_ef)

/-- `process_review` from `src/sm2.rs`. `now` is `Utc::now()` passed
explicitly; `Duration::days(i)` is `86400 * i` seconds. -/
def process_review (log : LearningLog) (quality : ℕ) (now : ℤ) : LearningLog :=
  let r := update_memory_state log.repetition log.e_factor quality
  let log := { log with
    repetition := r.1
    interval := r.2.1
    e_factor := r.2.2
    next_review := now + 86400 * r.2.1 }
  if 3 ≤ quality then
    if 21 < log.interval then { log with status := .Mastered }
    else { log with status := .Learning }
  else
    { log with status := .Learning }

/-- A row of the `review_history` table, as written by
`Database::add_review_history` in `src/db.rs` (word id, `reviewed_at`
timestamp, quality, and a snapshot of the post-review memory state). -/
structure HistoryRecord where
  word_id : ℤ
  reviewed_at : ℤ
  quality : ℕ
  repetition : ℤ
  interval : ℤ
  e_factor : ℚ
deriving DecidableEq, Repr

/-- The learning database (`src/db.rs`): the `learning_log` table, the
append-only `review_history` table, and the daily check-in table (the latter
summarised as a counter, see `Database.update_daily_checkin`). -/
structure Database where
  logs : List LearningLog
  history : List HistoryRecord
  checkins : ℕ
deriving DecidableEq, Repr

/-- `Database::update_log` from `src/db.rs`: SQL `UPDATE learning_log SET …
WHERE word_id = ?`, i.e. every row with a matching `word_id` is overwritten
with the new state. -/
def Database.update_log (db : Database) (log : LearningLog) : Database :=
  { db with logs := db.logs.map (fun l => if l.word_id = log.word_id then log else l) }

/-- `Database::add_review_history` from `src/db.rs`: SQL `INSERT INTO
review_history …` storing `Utc::now()` (passed here as `now`) and a snapshot
of the updated log. -/
def Database.add_review_history (db : Database) (word_id : ℤ) (quality : ℕ)
    (log : LearningLog) (now : ℤ) : Database :=
  { db with history := db.history ++
      [⟨word_id, now, quality, log.repetition, log.interval, log.e_factor⟩] }

/-- Modelled from the spec: `Database::update_daily_checkin` is called from
`ReviewComponent::submit_review` (`src/components/review.rs`) but its
definition is not among the provided sources. The spec describes it as an
external "daily goal check-in" side effect, out of core scope, whose result
is ignored by the session; it is summarised as bumping a check-in counter. -/
def Database.update_daily_checkin (db : Database) : Database :=
  { db with checkins := db.checkins + 1 }

/-- `Database::get_stats` from `src/db.rs`: `(total, mastered, due)` counts
over `learning_log`, with `due` measured against `Utc::now()` (`now`). -/
def Database.get_stats (db : Database) (now : ℤ) : ℤ × ℤ × ℤ :=
  ((db.logs.length : ℤ),
   (db.logs.countP (fun l => l.status == .Mastered) : ℤ),
   (db.logs.countP (fun l => l.next_review ≤ now) : ℤ))

/-- `Database::get_today_completed_count` from `src/db.rs`: counts
`review_history` rows whose `DATE(reviewed_at)` equals today's date; days are
modelled as `⌊t / 86400⌋` of the timestamp. -/
def Database.get_today_completed_count (db : Database) (now : ℤ) : ℤ :=
  (db.history.countP (fun h => h.reviewed_at.ediv 86400 == now.ediv 86400) : ℤ)

/-- `Screen` from `src/components/mod.rs`. -/
inductive Screen where
  | Dashboard
  | Review
  | Dictionary
  | History
  | Statistics
  | Wordbook
  | Favorites
  | Settings
deriving DecidableEq, Repr

/-- `Action` from `src/components/mod.rs`. -/
inductive Action where
  | NavigateTo (s : Screen)
  | StartWordbookReview (tag : String) (shuffle : Bool)
  | ToggleFavorite (word_id : ℤ)
  | Quit
  | None
deriving DecidableEq, Repr

/-- The key codes from `crossterm::event::KeyCode` that
`ReviewComponent::handle_key` distinguishes; every other key is `Other`. -/
inductive KeyCode where
  | Char (ch : Char)
  | Esc
  | Enter
  | Down
  | Up
  | Left
  | Right
  | Tab
  | Other
deriving DecidableEq, Repr

/-- Outcome of a fallible session operation: `ok` models `Ok(..)`,
`updateFailed`/`appendFailed` model the `?`-propagated `Err` of
`db.update_log` resp. `db.add_review_history`, and `panicked` models the
`word.id.unwrap()` panic on a word without an id. -/
inductive PersistOutcome where
  | ok
  | updateFailed
  | appendFailed
  | panicked
deriving DecidableEq, Repr

/-- `ReviewState` from `src/components/review.rs` (the enum of the same name
and shape in `src/app.rs` is shared with this one). -/
inductive ReviewState where
  | Question
  | Answer
deriving DecidableEq, Repr

/-- `ActivePanel` from `src/components/review.rs`. -/
inductive ActivePanel where
  | Definition
  | Exchange
deriving DecidableEq, Repr

/-- `ReviewMode` from `src/components/review.rs`. -/
inductive ReviewMode where
  | Due
  | Wordbook (tag : String) (shuffle : Bool)
deriving DecidableEq, Repr

/-- `ReviewComponent` from `src/components/review.rs`. `scroll` and
`exchange_scroll` are `u16` in the source; they are modelled as `ℕ` with
`saturating_add` capped at `65535` below. -/
structure ReviewComponent where
  db : Database
  review_queue : List (Word × LearningLog)
  current_item : Option (Word × LearningLog)
  state : ReviewState
  total_count : ℕ
  completed_count : ℕ
  scroll : ℕ
  exchange_scroll : ℕ
  active_panel : ActivePanel
  wordbook_info : Option (String × Bool)
deriving DecidableEq, Repr

namespace ReviewComponent

/-- `ReviewComponent::new` from `src/components/review.rs`. -/
def new (db : Database) : ReviewComponent :=
  { db := db
    review_queue := []
    current_item := none
    state := .Question
    total_count := 0
    completed_count := 0
    scroll := 0
    exchange_scroll := 0
    active_panel := .Definition
    wordbook_info := none }

/-- `ReviewComponent::next_card`: pops the next item off the end of the
queue (Rust `Vec::pop` removes the last element) and resets the per-card
display state. -/
def next_card (c : ReviewComponent) : ReviewComponent :=
  { c with
    current_item := c.review_queue.getLast?
    review_queue := c.review_queue.dropLast
    state := .Question
    scroll := 0
    exchange_scroll := 0
    active_panel := .Definition }

/-- `ReviewComponent::show_answer`. -/
def show_answer (c : ReviewComponent) : ReviewComponent :=
  { c with
    state := .Answer
    scroll := 0
    exchange_scroll := 0
    active_panel := .Definition }

/-- `ReviewComponent::start_review`. The database query
(`get_due_reviews` / `get_words_by_tag`, an I/O call) is passed in
explicitly as `fetched`, its result. Returns the Rust `Ok(bool)`. -/
def start_review (c : ReviewComponent) (mode : ReviewMode)
    (fetched : List (Word × LearningLog)) : ReviewComponent × Bool :=
  let c := { c with
    review_queue := fetched
    wordbook_info := match mode with
      | .Wordbook tag shuffle => some (tag, shuffle)
      | _ => none
    total_count := fetched.length
    completed_count := 0 }
  if c.review_queue.isEmpty then (c, false)
  else (c.next_card, true)

/-- `ReviewComponent::submit_review`. `now` stands for `Utc::now()`;
`updateOk`/`appendOk` are the outcomes of the two fallible database writes
(`?`-propagated on failure); `checkinOk` is the outcome of
`update_daily_checkin`, whose result the source explicitly discards
(`let _ = …`). -/
def submit_review (c : ReviewComponent) (quality : ℕ) (now : ℤ)
    (updateOk appendOk checkinOk : Bool) : ReviewComponent × PersistOutcome :=
  match c.current_item with
  | none => (c, .ok)
  | some (word, log) =>
    let c := { c with current_item := none }
    match word.id with
    | none => (c, .panicked)
    | some word_id =>
      let log := process_review log quality now
      if updateOk then
        let c := { c with db := c.db.update_log log }
        if appendOk then
          let c := { c with db := c.db.add_review_history word_id quality log now }
          let c := { c with completed_count := c.completed_count + 1 }
          let c := if checkinOk then { c with db := c.db.update_daily_checkin } else c
          (c.next_card, .ok)
        else (c, .appendFailed)
      else (c, .updateFailed)

/-- `ReviewComponent::is_complete`. -/
def is_complete (c : ReviewComponent) : Bool :=
  c.current_item.isNone

/-- `ReviewComponent::handle_key` (the `Component` impl in
`src/components/review.rs`). Returns the mutated component, the outcome
(`.ok` for Rust `Ok`, otherwise the propagated error), and `some action` for
the `Ok(action)` case (`none` when an error is propagated). -/
def handle_key (c : ReviewComponent) (key : KeyCode) (now : ℤ)
    (updateOk appendOk checkinOk : Bool) :
    ReviewComponent × PersistOutcome × Option Action :=
  let graded : ℕ → ReviewComponent × PersistOutcome × Option Action := fun q =>
    let r := c.submit_review q now updateOk appendOk checkinOk
    match r.2 with
    | .ok =>
      if r.1.is_complete then (r.1, .ok, some (.NavigateTo .Dashboard))
      else (r.1, .ok, some .None)
    | out => (r.1, out, none)
  match c.state with
  | .Question =>
    match key with
    | .Char 'q' | .Esc => (c, .ok, some (.NavigateTo .Dashboard))
    | .Char ' ' | .Enter => (c.show_answer, .ok, some .None)
    | _ => (c, .ok, some .None)
  | .Answer =>
    match key with
    | .Char 'q' | .Esc => (c, .ok, some (.NavigateTo .Dashboard))
    | .Char 'j' | .Down =>
      (match c.active_panel with
       | .Definition => ({ c with scroll := min (c.scroll + 1) 65535 }, .ok, some .None)
       | .Exchange =>
         ({ c with exchange_scroll := min (c.exchange_scroll + 1) 65535 }, .ok, some .None))
    | .Char 'k' | .Up =>
      (match c.active_panel with
       | .Definition => ({ c with scroll := c.scroll - 1 }, .ok, some .None)
       | .Exchange => ({ c with exchange_scroll := c.exchange_scroll - 1 }, .ok, some .None))
    | .Char 'h' | .Left => ({ c with active_panel := .Definition }, .ok, some .None)
    | .Char 'l' | .Right | .Tab => ({ c with active_panel := .Exchange }, .ok, some .None)
    | .Char '1' => graded 1
    | .Char '2' => graded 2
    | .Char '3' => graded 3
    | .Char '4' => graded 4
    | _ => (c, .ok, some .None)

end ReviewComponent

/-- `CurrentScreen` from `src/app.rs`. -/
inductive CurrentScreen where
  | Dashboard
  | Review
  | Dictionary
  | History
  | Statistics
  | Exiting
deriving DecidableEq, Repr

/-- `App` from `src/app.rs` (the legacy driver; `src/app_v2.rs` delegates the
review flow to `ReviewComponent` instead). -/
structure App where
  current_screen : CurrentScreen
  db : Database
  stats : ℤ × ℤ × ℤ
  today_completed : ℤ
  review_queue : List (Word × LearningLog)
  current_review_item : Option (Word × LearningLog)
  review_state : ReviewState
  total_review_count : ℕ
  completed_review_count : ℕ
  show_completion_message : Bool
  dict_search_input : String
  dict_word_list : List (Word × Option LearningLog)
  dict_selected_index : ℕ
  history_list : List (Word × ℤ × ℕ)
  stats_interval_data : List (ℤ × ℚ × ℤ)
  stats_daily_data : List (String × ℤ)
deriving DecidableEq, Repr

namespace App

/-- `App::refresh_stats` from `src/app.rs` (`now` stands for the
`Utc::now()` read inside the two database queries). -/
def refresh_stats (a : App) (now : ℤ) : App :=
  { a with
    stats := a.db.get_stats now
    today_completed := a.db.get_today_completed_count now }

/-- `App::next_review_card` from `src/app.rs`: pops the last queue element
(`Vec::pop`) into `current_review_item`; if the queue was exhausted, refreshes
the statistics, raises the completion message and returns to the dashboard. -/
def next_review_card (a : App) (now : ℤ) : App :=
  let a := { a with
    current_review_item := a.review_queue.getLast?
    review_queue := a.review_queue.dropLast
    review_state := .Question }
  if a.current_review_item.isNone then
    let a := a.refresh_stats now
    { a with show_completion_message := true, current_screen := .Dashboard }
  else a

/-- `App::submit_review` from `src/app.rs`. `current_review_item.take()`
happens first; then the scheduler runs, the two fallible database writes
follow (an `Err` is propagated by `?`, leaving the already-performed
mutations in place), and only on success are the statistics refreshed, the
counter bumped and the next card drawn. -/
def submit_review (a : App) (quality : ℕ) (now : ℤ)
    (updateOk appendOk : Bool) : App × PersistOutcome :=
  match a.current_review_item with
  | none => (a, .ok)
  | some (word, log) =>
    let a := { a with current_review_item := none }
    match word.id with
    | none => (a, .panicked)
    | some word_id =>
      let log := process_review log quality now
      if updateOk then
        let a := { a with db := a.db.update_log log }
        if appendOk then
          let a := { a with db := a.db.add_review_history word_id quality log now }
          let a := a.refresh_stats now
          let a := { a with completed_review_count := a.completed_review_count + 1 }
          (a.next_review_card now, .ok)
        else (a, .appendFailed)
      else (a, .updateFailed)

end App

/-- Running the Scheduler over a whole grade sequence: the state is
`(repetition_count, interval_days, ease_factor)` and each grade feeds the
previous repetition count and ease factor back into `update_memory_state`. -/
def gradeSeq : ℤ × ℤ × ℚ → List ℕ → ℤ × ℤ × ℚ
  | s, [] => s
  | s, q :: qs => gradeSeq (update_memory_state s.1 s.2.2 q) qs

/-- One full successful review round, as driven by the UI: reveal the answer
(`show_answer`), then grade (`submit_review` with every persistence call
succeeding). -/
def ReviewComponent.reviewRound (c : ReviewComponent) (q : ℕ) (now : ℤ) :
    ReviewComponent :=
  (c.show_answer.submit_review q now true true true).1

/-- A whole sequence of review rounds; each grade is paired with the
`Utc::now()` timestamp of its round. -/
def ReviewComponent.runRounds (c : ReviewComponent) (grades : List (ℕ × ℤ)) :
    ReviewComponent :=
  grades.foldl (fun s g => s.reviewRound g.1 g.2) c

/-- Concrete fixture: a word with id 1. -/
def word1 : Word := ⟨some 1, "apple"⟩

/-- Concrete fixture: a fresh learning log for `word1`. -/
def log1 : LearningLog := ⟨1, 0, 0, 5/2, 0, .New⟩

/-- Concrete fixture: a word with id 2. -/
def word2 : Word := ⟨some 2, "breeze"⟩

/-- Concrete fixture: a learning log for `word2`. -/
def log2 : LearningLog := ⟨2, 1, 1, 5/2, 0, .Learning⟩

/-- Concrete fixture: a database holding the two logs. -/
def db1 : Database := ⟨[log1, log2], [], 0⟩

/-- Concrete fixture: the session state right after starting a one-item
queue — the item is being served with the answer hidden (`Question`). -/
def cQuestion : ReviewComponent :=
  ((ReviewComponent.new db1).start_review .Due [(word1, log1)]).1

/-- Concrete fixture: the same session after its single item was revealed and
graded — the queue is exhausted, so the session is complete. -/
def cComplete : ReviewComponent :=
  (cQuestion.show_answer.submit_review 3 0 true true true).1

/-- Concrete fixture: an `App` (legacy driver) mid-review, serving
`(word1, log1)` with `(word2, log2)` still queued. -/
def app1 : App :=
  { current_screen := .Review
    db := db1
    stats := (2, 0, 2)
    today_completed := 0
    review_queue := [(word2, log2)]
    current_review_item := some (word1, log1)
    review_state := .Answer
    total_review_count := 2
    completed_review_count := 0
    show_completion_message := false
    dict_search_input := ""
    dict_word_list := []
    dict_selected_index := 0
    history_list := []
    stats_interval_data := []
    stats_daily_data := [] }

example : update_memory_state 0 (5/2) 3 = (1, 1, 59/25) := by
  norm_num [update_memory_state]
example : update_memory_state 1 (59/25) 3 = (2, 6, 111/50) := by
  norm_num [update_memory_state]
example : update_memory_state 2 (111/50) 4 = (3, 4, 111/50) := by
  norm_num [update_memory_state, rustRound, Int.floor_eq_iff]
example : update_memory_state 7 (13/10) 1 = (0, 1, 13/10) := by
  norm_num [update_memory_state]

/-! ## Scheduler lemmas -/

lemma ite_lt_eq_max (x c : ℚ) : (if x < c then c else x) = max c x := by
  split_ifs with h
  · exact (max_eq_left h.le).symm
  · exact (max_eq_right (not_lt.mp h)).symm

/-- The ease-factor component of `update_memory_state`, independent of the
pass/lapse branch. -/
lemma update_memory_state_ef (r : ℤ) (ef : ℚ) (q : ℕ) :
    (update_memory_state r ef q).2.2 =
      max (13/10) (ef + (1/10 - (5 - (q:ℚ)) * (2/25 + (5 - (q:ℚ)) * (1/50)))) := by
  simp only [update_memory_state]
  rw [ite_lt_eq_max]

lemma update_memory_state_lapse (r : ℤ) (ef : ℚ) (q : ℕ) (hq : ¬ 3 ≤ q) :
    (update_memory_state r ef q).1 = 0 ∧ (update_memory_state r ef q).2.1 = 1 := by
  simp [update_memory_state, hq]

lemma update_memory_state_pass (r : ℤ) (ef : ℚ) (q : ℕ) (hq : 3 ≤ q) :
    (update_memory_state r ef q).1 = r + 1 ∧
    (update_memory_state r ef q).2.1 =
      (if r = 0 then 1 else if r = 1 then 6 else rustRound ((r:ℚ) * ef)) := by
  simp only [update_memory_state, if_pos hq]
  exact ⟨trivial, trivial⟩

lemma process_review_repetition (log : LearningLog) (q : ℕ) (now : ℤ) :
    (process_review log q now).repetition =
      (update_memory_state log.repetition log.e_factor q).1 := by
  simp only [process_review]
  split_ifs <;> rfl

lemma process_review_interval (log : LearningLog) (q : ℕ) (now : ℤ) :
    (process_review log q now).interval =
      (update_memory_state log.repetition log.e_factor q).2.1 := by
  simp only [process_review]
  split_ifs <;> rfl

lemma process_review_status (log : LearningLog) (q : ℕ) (now : ℤ) :
    (process_review log q now).status =
      if 3 ≤ q then
        (if 21 < (update_memory_state log.repetition log.e_factor q).2.1 then
          LearningStatus.Mastered
        else LearningStatus.Learning)
      else LearningStatus.Learning := by
  simp only [process_review]
  split_ifs <;> rfl

/-! ## Claims about the Scheduler -/

/-- C1: For every input with `repetition_count ≥ 0`, `ease_factor ≥ 1.3`
and quality in the supported range, `update_memory_state` returns
`new_ease_factor = max(1.3, ease_factor + 0.1 − (5 − quality)·(0.08 +
(5 − quality)·0.02))`; the update is applied unconditionally (the formula
holds on lapses `q < 3` as well as passes) using the original quality, and
the result always satisfies `new_ease_factor ≥ 1.3`. -/
theorem C1_ease_factor_update (repetition_count : ℤ) (ease_factor : ℚ) (quality : ℕ)
    (_hrep : 0 ≤ repetition_count) (_hef : 13/10 ≤ ease_factor)
    (_hq : 1 ≤ quality ∧ quality ≤ 4) :
    (update_memory_state repetition_count ease_factor quality).2.2 =
      max (13/10)
        (ease_factor + 1/10 -
          (5 - (quality : ℚ)) * (2/25 + (5 - (quality : ℚ)) * (1/50))) ∧
    13/10 ≤ (update_memory_state repetition_count ease_factor quality).2.2 := by
  constructor
  · rw [update_memory_state_ef]
    congr 1
    ring
  · rw [update_memory_state_ef]
    exact le_max_left _ _

/-- Witness for C1 at `repetition_count = 0`, `ease_factor = 5/2`,
`quality = 3`. -/
theorem C1_witness :
    ((0:ℤ) ≤ 0 ∧ (13/10:ℚ) ≤ 5/2 ∧ (1 ≤ 3 ∧ 3 ≤ 4)) ∧
    ((update_memory_state 0 (5/2) 3).2.2 =
        max (13/10) (5/2 + 1/10 - (5 - ((3:ℕ):ℚ)) * (2/25 + (5 - ((3:ℕ):ℚ)) * (1/50))) ∧
      13/10 ≤ (update_memory_state 0 (5/2) 3).2.2) :=
  ⟨⟨le_refl _, by norm_num, by norm_num, by norm_num⟩,
    C1_ease_factor_update 0 (5/2) 3 (le_refl _) (by norm_num) ⟨by norm_num, by norm_num⟩⟩

/-- C2: On every passing grade (`quality ≥ 3`): pre-update
`repetition_count = 0` gives `new_interval_days = 1`; pre-update
`repetition_count = 1` gives `new_interval_days = 6`; otherwise
`new_interval_days = round(repetition_count · ease_factor)` from the
pre-update values; and `new_repetition_count = repetition_count + 1`. -/
theorem C2_passing_update (repetition_count : ℤ) (ease_factor : ℚ) (quality : ℕ)
    (hq : 3 ≤ quality) :
    (update_memory_state repetition_count ease_factor quality).1 =
        repetition_count + 1 ∧
    (repetition_count = 0 →
      (update_memory_state repetition_count ease_factor quality).2.1 = 1) ∧
    (repetition_count = 1 →
      (update_memory_state repetition_count ease_factor quality).2.1 = 6) ∧
    (repetition_count ≠ 0 → repetition_count ≠ 1 →
      (update_memory_state repetition_count ease_factor quality).2.1 =
        rustRound ((repetition_count : ℚ) * ease_factor)) := by
  obtain ⟨h1, h2⟩ := update_memory_state_pass repetition_count ease_factor quality hq
  refine ⟨h1, ?_, ?_, ?_⟩
  · intro h0
    rw [h2, if_pos h0]
  · intro h1'
    rw [h2, if_neg (by omega), if_pos h1']
  · intro h0 h1'
    rw [h2, if_neg h0, if_neg h1']

/-- Witness for C2 at `repetition_count = 5`, `ease_factor = 2`,
`quality = 4` (the `round` branch: `round(5 · 2) = 10`). -/
theorem C2_witness :
    (3 ≤ 4) ∧
    ((update_memory_state 5 2 4).1 = 5 + 1 ∧
      ((5:ℤ) = 0 → (update_memory_state 5 2 4).2.1 = 1) ∧
      ((5:ℤ) = 1 → (update_memory_state 5 2 4).2.1 = 6) ∧
      ((5:ℤ) ≠ 0 → (5:ℤ) ≠ 1 →
        (update_memory_state 5 2 4).2.1 = rustRound (((5:ℤ) : ℚ) * 2))) :=
  ⟨by norm_num, C2_passing_update 5 2 4 (by norm_num)⟩

/-- C3: On every lapse (`quality < 3`) and from every prior state,
`update_memory_state` returns `new_repetition_count = 0` and
`new_interval_days = 1`. -/
theorem C3_lapse_reset (repetition_count : ℤ) (ease_factor : ℚ) (quality : ℕ)
    (hq : quality < 3) :
    (update_memory_state repetition_count ease_factor quality).1 = 0 ∧
    (update_memory_state repetition_count ease_factor quality).2.1 = 1 :=
  update_memory_state_lapse repetition_count ease_factor quality (by omega)

/-- Witness for C3 at `repetition_count = 9`, `ease_factor = 5/2`,
`quality = 2`. -/
theorem C3_witness :
    (2 < 3) ∧
    ((update_memory_state 9 (5/2) 2).1 = 0 ∧
      (update_memory_state 9 (5/2) 2).2.1 = 1) :=
  ⟨by norm_num, C3_lapse_reset 9 (5/2) 2 (by norm_num)⟩

/-- C4: After every `process_review` call the stored status is
`Mastered` iff the grade passed (`quality ≥ 3`) and the newly computed
`interval_days` exceeds 21 (a passing grade with `interval_days ≤ 21` yields
`Learning`), and any lapse (`quality < 3`) forces `status = Learning` and
`repetition_count = 0`. -/
theorem C4_mastery_status (log : LearningLog) (quality : ℕ) (now : ℤ) :
    ((process_review log quality now).status = .Mastered ↔
      3 ≤ quality ∧ 21 < (process_review log quality now).interval) ∧
    (3 ≤ quality → (process_review log quality now).interval ≤ 21 →
      (process_review log quality now).status = .Learning) ∧
    (quality < 3 →
      (process_review log quality now).status = .Learning ∧
      (process_review log quality now).repetition = 0) := by
  rw [process_review_status, process_review_interval, process_review_repetition]
  by_cases h3 : 3 ≤ quality
  · rw [if_pos h3]
    by_cases h21 : 21 < (update_memory_state log.repetition log.e_factor quality).2.1
    · rw [if_pos h21]
      exact ⟨⟨fun _ => ⟨h3, h21⟩, fun _ => rfl⟩,
        fun _ hle => absurd h21 (not_lt.mpr hle),
        fun hlt => absurd h3 (by omega)⟩
    · rw [if_neg h21]
      exact ⟨⟨fun h => absurd h (by decide), fun hc => absurd hc.2 h21⟩,
        fun _ _ => rfl,
        fun hlt => absurd h3 (by omega)⟩
  · rw [if_neg h3]
    exact ⟨⟨fun h => absurd h (by decide), fun hc => absurd hc.1 h3⟩,
      fun h _ => absurd h h3,
      fun _ => ⟨rfl, (update_memory_state_lapse _ _ _ h3).1⟩⟩

/-- Witness for C4 at a concrete mastered transition: repetition 10, ease
factor 5/2, quality 4 (interval `round(10 · 2.5) = 25 > 21`). -/
theorem C4_witness :
    ((process_review ⟨7, 10, 20, 5/2, 0, .Learning⟩ 4 0).status = .Mastered ↔
      3 ≤ 4 ∧ 21 < (process_review ⟨7, 10, 20, 5/2, 0, .Learning⟩ 4 0).interval) ∧
    (3 ≤ 4 → (process_review ⟨7, 10, 20, 5/2, 0, .Learning⟩ 4 0).interval ≤ 21 →
      (process_review ⟨7, 10, 20, 5/2, 0, .Learning⟩ 4 0).status = .Learning) ∧
    (4 < 3 →
      (process_review ⟨7, 10, 20, 5/2, 0, .Learning⟩ 4 0).status = .Learning ∧
      (process_review ⟨7, 10, 20, 5/2, 0, .Learning⟩ 4 0).repetition = 0) :=
  C4_mastery_status ⟨7, 10, 20, 5/2, 0, .Learning⟩ 4 0

lemma gradeSeq_333 : gradeSeq (0, 0, 5/2) [3] = (1, 1, 59/25) ∧
    gradeSeq (0, 0, 5/2) [3, 3] = (2, 6, 111/50) ∧
    gradeSeq (0, 0, 5/2) [3, 3, 4] = (3, 4, 111/50) := by
  have h1 : update_memory_state 0 (5/2) 3 = (1, 1, 59/25) := by
    norm_num [update_memory_state]
  have h2 : update_memory_state 1 (59/25) 3 = (2, 6, 111/50) := by
    norm_num [update_memory_state]
  have h3 : update_memory_state 2 (111/50) 4 = (3, 4, 111/50) := by
    norm_num [update_memory_state, rustRound, Int.floor_eq_iff]
  refine ⟨?_, ?_, ?_⟩ <;> simp [gradeSeq, h1, h2, h3]

/-- C5 (counterexample): starting from `repetition_count = 0`,
`ease_factor = 2.5`, the grade sequence `[3, 3, 4]` leaves the Scheduler with
`interval_days = 4` — namely `round(2 · ease_factor)` from the pre-update
repetition count 2 — whereas the claimed `round(3 · ease_factor) = 7`
(whether `ease_factor ≈ 2.22` is read before or after the third update). -/
theorem C5_counterexample :
    (gradeSeq (0, 0, 5/2) [3, 3, 4]).2.1 = 4 ∧
    rustRound (3 * (gradeSeq (0, 0, 5/2) [3, 3]).2.2) = 7 ∧
    rustRound (3 * (gradeSeq (0, 0, 5/2) [3, 3, 4]).2.2) = 7 ∧
    (gradeSeq (0, 0, 5/2) [3, 3, 4]).2.1 ≠
      rustRound (3 * (gradeSeq (0, 0, 5/2) [3, 3]).2.2) := by
  obtain ⟨h1, h2, h3⟩ := gradeSeq_333
  rw [h2, h3]
  norm_num [rustRound, Int.floor_eq_iff]

/-- C5 (amended): starting from `repetition_count = 0`, `ease_factor = 2.5`,
the grade sequence `[3, 3, 4]` yields: after the 1st grade `(1, 1, 2.36)`;
after the 2nd `(2, 6, 2.22)`; after the 3rd (quality 4) `repetition_count =
3` and `interval_days = round(2 · ease_factor) = 4`, computed from the
pre-update repetition count 2 and ease factor 2.22 (which the zero-delta
quality-4 update leaves unchanged). -/
theorem C5_grade_sequence :
    gradeSeq (0, 0, 5/2) [3] = (1, 1, 59/25) ∧
    gradeSeq (0, 0, 5/2) [3, 3] = (2, 6, 111/50) ∧
    gradeSeq (0, 0, 5/2) [3, 3, 4] =
      (3, rustRound (2 * (gradeSeq (0, 0, 5/2) [3, 3]).2.2),
        (gradeSeq (0, 0, 5/2) [3, 3]).2.2) := by
  obtain ⟨h1, h2, h3⟩ := gradeSeq_333
  refine ⟨h1, h2, ?_⟩
  rw [h2, h3]
  norm_num [rustRound, Int.floor_eq_iff]

/-- C6 (counterexample): the Scheduler does not reject a grade outside the
exposed 1–4 scale: `update_memory_state` silently computes a result from
quality 0 (treated as a lapse, ease delta −0.8) and from quality 5 (treated
as a pass, ease delta +0.1), and the quality-0 ease factor differs from the
one produced by every supported grade, so the out-of-range grade is not
clamped either. -/
theorem C6_counterexample :
    update_memory_state 0 (5/2) 0 = (0, 1, 17/10) ∧
    update_memory_state 0 (5/2) 5 = (1, 1, 13/5) ∧
    (update_memory_state 0 (5/2) 1).2.2 = 49/25 ∧
    (update_memory_state 0 (5/2) 2).2.2 = 109/50 ∧
    (update_memory_state 0 (5/2) 3).2.2 = 59/25 ∧
    (update_memory_state 0 (5/2) 4).2.2 = 5/2 ∧
    (17/10 : ℚ) ≠ 49/25 ∧ (17/10 : ℚ) ≠ 109/50 ∧
    (17/10 : ℚ) ≠ 59/25 ∧ (17/10 : ℚ) ≠ 5/2 := by
  norm_num [update_memory_state]

/-- C6 (amended): the Scheduler performs no input validation: a quality
grade outside the supported 1–4 scale is neither rejected nor clamped;
`update_memory_state` totally computes a result from the raw grade — quality
0 is processed as a lapse with ease delta −0.8 and quality 5 as a pass with
ease delta +0.1, for every prior state. -/
theorem C6_no_validation (r : ℤ) (ef : ℚ) :
    update_memory_state r ef 0 = (0, 1, max (13/10) (ef - 4/5)) ∧
    (update_memory_state r ef 5).1 = r + 1 ∧
    (update_memory_state r ef 5).2.2 = max (13/10) (ef + 1/10) := by
  refine ⟨?_, ?_, ?_⟩
  · have h := update_memory_state_lapse r ef 0 (by norm_num)
    have hef := update_memory_state_ef r ef 0
    rw [show update_memory_state r ef 0 =
      ((update_memory_state r ef 0).1,
       (update_memory_state r ef 0).2.1,
       (update_memory_state r ef 0).2.2) from rfl]
    rw [h.1, h.2, hef]
    norm_num
    rw [sub_eq_add_neg]
  · exact (update_memory_state_pass r ef 5 (by norm_num)).1
  · rw [update_memory_state_ef]
    norm_num

/-- C10: After every `process_review` call, with any quality grade, the
stored learning status is `Learning` or `Mastered`, never `New`. -/
theorem C10_never_new (log : LearningLog) (quality : ℕ) (now : ℤ) :
    (process_review log quality now).status ≠ .New ∧
    ((process_review log quality now).status = .Learning ∨
      (process_review log quality now).status = .Mastered) := by
  rw [process_review_status]
  split_ifs <;> simp

/-! ## Review-session lemmas -/

lemma submit_review_some (c : ReviewComponent) (w : Word) (l : LearningLog) (i : ℤ)
    (hcur : c.current_item = some (w, l)) (hid : w.id = some i) (q : ℕ) (now : ℤ) :
    c.submit_review q now true true true =
      ({ db := ((c.db.update_log (process_review l q now)).add_review_history i q
            (process_review l q now) now).update_daily_checkin
         review_queue := c.review_queue.dropLast
         current_item := c.review_queue.getLast?
         state := .Question
         total_count := c.total_count
         completed_count := c.completed_count + 1
         scroll := 0
         exchange_scroll := 0
         active_panel := .Definition
         wordbook_info := c.wordbook_info }, .ok) := by
  simp [ReviewComponent.submit_review, ReviewComponent.next_card, hcur, hid]

lemma reviewRound_eq (c : ReviewComponent) (w : Word) (l : LearningLog) (i : ℤ)
    (hcur : c.current_item = some (w, l)) (hid : w.id = some i) (q : ℕ) (now : ℤ) :
    c.reviewRound q now =
      { db := ((c.db.update_log (process_review l q now)).add_review_history i q
            (process_review l q now) now).update_daily_checkin
        review_queue := c.review_queue.dropLast
        current_item := c.review_queue.getLast?
        state := .Question
        total_count := c.total_count
        completed_count := c.completed_count + 1
        scroll := 0
        exchange_scroll := 0
        active_panel := .Definition
        wordbook_info := c.wordbook_info } := by
  have h := submit_review_some c.show_answer w l i
    (by simpa [ReviewComponent.show_answer] using hcur) hid q now
  simp only [ReviewComponent.reviewRound, h]
  simp [ReviewComponent.show_answer]

/-- The `graded` closure of `handle_key`, evaluated on a session with no
current item: `submit_review` is a no-op returning `Ok`, the session reads
as complete, so the closure yields `NavigateTo Dashboard` with no error. -/
lemma handle_key_graded_complete (c : ReviewComponent) (q : ℕ) (now : ℤ)
    (u a k : Bool) (hnone : c.current_item = none) :
    (let r := c.submit_review q now u a k
     match r.2 with
     | PersistOutcome.ok =>
       if r.1.is_complete then
         (r.1, PersistOutcome.ok, some (Action.NavigateTo Screen.Dashboard))
       else (r.1, PersistOutcome.ok, some Action.None)
     | out => (r.1, out, none))
      = (c, .ok, some (.NavigateTo .Dashboard)) := by
  have hsub : c.submit_review q now u a k = (c, .ok) := by
    unfold ReviewComponent.submit_review
    rw [hnone]
  simp only [hsub]
  unfold ReviewComponent.is_complete
  rw [hnone]
  rfl

lemma start_review_nonempty (db : Database) (mode : ReviewMode)
    (ws : List (Word × LearningLog)) (hne : ws ≠ []) :
    (ReviewComponent.new db).start_review mode ws =
      ({ db := db
         review_queue := ws.dropLast
         current_item := ws.getLast?
         state := .Question
         total_count := ws.length
         completed_count := 0
         scroll := 0
         exchange_scroll := 0
         active_panel := .Definition
         wordbook_info := match mode with
           | .Wordbook tag shuffle => some (tag, shuffle)
           | _ => none }, true) := by
  simp [ReviewComponent.start_review, ReviewComponent.new, ReviewComponent.next_card,
    List.isEmpty_iff, hne]

/-- Session-progress invariant: from a live session (a current item with a
word id, every queued word having an id), `k ≤ queue length` successful
rounds keep the session live and consume exactly `k` queue entries. -/
lemma runRounds_live (grades : List (ℕ × ℤ)) :
    ∀ c : ReviewComponent,
      c.current_item.isSome →
      (∀ p : Word × LearningLog, c.current_item = some p → p.1.id.isSome) →
      (∀ p ∈ c.review_queue, (p : Word × LearningLog).1.id.isSome) →
      grades.length ≤ c.review_queue.length →
      ((c.runRounds grades).current_item.isSome ∧
        (∀ p, (c.runRounds grades).current_item = some p → p.1.id.isSome) ∧
        (∀ p ∈ (c.runRounds grades).review_queue, p.1.id.isSome) ∧
        (c.runRounds grades).review_queue.length =
          c.review_queue.length - grades.length) := by
  induction grades with
  | nil =>
    intro c h1 h2 h3 _
    exact ⟨h1, h2, h3, by
      show c.review_queue.length = c.review_queue.length - 0
      omega⟩
  | cons g gs ih =>
    intro c h1 h2 h3 hlen
    obtain ⟨⟨w, l⟩, hcur⟩ := Option.isSome_iff_exists.mp h1
    obtain ⟨i, hid⟩ := Option.isSome_iff_exists.mp (h2 (w, l) hcur)
    have hq : c.review_queue ≠ [] := by
      intro hnil
      rw [hnil] at hlen
      simp at hlen
    have hstep := reviewRound_eq c w l i hcur hid g.1 g.2
    have hcur' : (c.reviewRound g.1 g.2).current_item = c.review_queue.getLast? := by
      rw [hstep]
    have hque' : (c.reviewRound g.1 g.2).review_queue = c.review_queue.dropLast := by
      rw [hstep]
    have hlast : (c.review_queue.getLast?).isSome := List.getLast?_isSome.mpr hq
    obtain ⟨p, hp⟩ := Option.isSome_iff_exists.mp hlast
    have hrun : c.runRounds (g :: gs) = (c.reviewRound g.1 g.2).runRounds gs := by
      simp [ReviewComponent.runRounds]
    obtain ⟨ha, hb, hc', hd⟩ := ih (c.reviewRound g.1 g.2)
      (by rw [hcur', hp]; rfl)
      (by
        intro p' hp'
        rw [hcur', hp] at hp'
        cases Option.some.inj hp'
        exact h3 p (List.mem_of_mem_getLast? hp))
      (by
        intro p' hp'
        rw [hque'] at hp'
        exact h3 p' (List.mem_of_mem_dropLast hp'))
      (by
        rw [hque', List.length_dropLast]
        simp only [List.length_cons] at hlen
        omega)
    rw [hrun]
    refine ⟨ha, hb, hc', ?_⟩
    rw [hd, hque', List.length_dropLast]
    simp only [List.length_cons]
    omega

/-! ## Claims about the review session -/

/-- C7: for every session started with a non-empty queue of N items (with
`start_review` returning `true`), exactly N successful grade calls — each
from state `Answer`, interleaved with `reveal_answer` — drive the session to
completion: `is_complete` is `false` after any `k < N` grades and becomes
`true` exactly when the N-th grade is processed. (Every served word carries
an id, as all database rows do; a grade call only succeeds on such items.) -/
theorem C7_completion_signal (db : Database) (mode : ReviewMode)
    (ws : List (Word × LearningLog)) (hne : ws ≠ [])
    (hids : ∀ p ∈ ws, (p : Word × LearningLog).1.id.isSome)
    (grades : List (ℕ × ℤ)) :
    ((ReviewComponent.new db).start_review mode ws).2 = true ∧
    (grades.length < ws.length →
      ((((ReviewComponent.new db).start_review mode ws).1.runRounds grades).is_complete
        = false)) ∧
    (grades.length = ws.length →
      ((((ReviewComponent.new db).start_review mode ws).1.runRounds grades).is_complete
        = true)) := by
  have h0 := start_review_nonempty db mode ws hne
  have hlast : (ws.getLast?).isSome := List.getLast?_isSome.mpr hne
  obtain ⟨p0, hp0⟩ := Option.isSome_iff_exists.mp hlast
  have hc0cur : ((ReviewComponent.new db).start_review mode ws).1.current_item
      = ws.getLast? := by rw [h0]
  have hc0que : ((ReviewComponent.new db).start_review mode ws).1.review_queue
      = ws.dropLast := by rw [h0]
  have hNpos : 1 ≤ ws.length := by
    cases ws with
    | nil => exact absurd rfl hne
    | cons a t => simp
  have hyp1 : (((ReviewComponent.new db).start_review mode ws).1.current_item).isSome := by
    rw [hc0cur, hp0]; rfl
  have hyp2 : ∀ p : Word × LearningLog,
      ((ReviewComponent.new db).start_review mode ws).1.current_item = some p →
        p.1.id.isSome := by
    intro p' hp'
    rw [hc0cur, hp0] at hp'
    cases Option.some.inj hp'
    exact hids p0 (List.mem_of_mem_getLast? hp0)
  have hyp3 : ∀ p ∈ ((ReviewComponent.new db).start_review mode ws).1.review_queue,
      (p : Word × LearningLog).1.id.isSome := by
    intro p' hp'
    rw [hc0que] at hp'
    exact hids p' (List.mem_of_mem_dropLast hp')
  refine ⟨by rw [h0], ?_, ?_⟩
  · intro hlt
    obtain ⟨ha, _, _, _⟩ := runRounds_live grades
      ((ReviewComponent.new db).start_review mode ws).1 hyp1 hyp2 hyp3
      (by rw [hc0que, List.length_dropLast]; omega)
    obtain ⟨pz, hpz⟩ := Option.isSome_iff_exists.mp ha
    simp [ReviewComponent.is_complete, hpz]
  · intro heq
    rcases List.eq_nil_or_concat' grades with hnil | ⟨gs, g, rfl⟩
    · rw [hnil] at heq
      simp at heq
      omega
    · have hgs : gs.length = ws.length - 1 := by
        simp only [List.length_append, List.length_cons, List.length_nil] at heq
        omega
      obtain ⟨ha, hb, _, hd⟩ := runRounds_live gs
        ((ReviewComponent.new db).start_review mode ws).1 hyp1 hyp2 hyp3
        (by rw [hc0que, List.length_dropLast]; omega)
      have hqnil : (((ReviewComponent.new db).start_review mode ws).1.runRounds
          gs).review_queue = [] := by
        apply List.length_eq_zero.mp
        rw [hd, hc0que]
        simp only [List.length_dropLast]
        omega
      obtain ⟨⟨w, l⟩, hcur⟩ := Option.isSome_iff_exists.mp ha
      obtain ⟨i, hid⟩ := Option.isSome_iff_exists.mp (hb (w, l) hcur)
      have hfold : ((ReviewComponent.new db).start_review mode ws).1.runRounds
            (gs ++ [g])
          = (((ReviewComponent.new db).start_review mode ws).1.runRounds
              gs).reviewRound g.1 g.2 := by
        simp [ReviewComponent.runRounds, List.foldl_append]
      rw [hfold, reviewRound_eq _ w l i hcur hid g.1 g.2]
      simp [ReviewComponent.is_complete, hqnil]

/-- Closed witness for C7: a session over the two-item queue
`[(word2, log2), (word1, log1)]` starts successfully, is not complete after
one grade, and is complete after two. -/
theorem C7_witness :
    (([(word2, log2), (word1, log1)] : List (Word × LearningLog)) ≠ [] ∧
      ∀ p ∈ ([(word2, log2), (word1, log1)] : List (Word × LearningLog)),
        (p : Word × LearningLog).1.id.isSome) ∧
    ((ReviewComponent.new db1).start_review .Due [(word2, log2), (word1, log1)]).2
        = true ∧
    ((((ReviewComponent.new db1).start_review .Due
        [(word2, log2), (word1, log1)]).1.runRounds [(3, 0)]).is_complete = false) ∧
    ((((ReviewComponent.new db1).start_review .Due
        [(word2, log2), (word1, log1)]).1.runRounds [(3, 0), (2, 5)]).is_complete
        = true) := by
  have hids : ∀ p ∈ ([(word2, log2), (word1, log1)] : List (Word × LearningLog)),
      (p : Word × LearningLog).1.id.isSome := by
    intro p hp
    simp [word1, word2] at hp ⊢
    rcases hp with h | h <;> simp [h, word1, word2]
  have h := C7_completion_signal db1 .Due [(word2, log2), (word1, log1)]
    (by simp) hids
  exact ⟨⟨by simp, hids⟩, (h [(3, 0)]).1,
    (h [(3, 0)]).2.1 (by simp),
    (h [(3, 0), (2, 5)]).2.2 (by simp)⟩

/-- C8 (counterexample): grading is not rejected outside state `Answer`: in
state `Question` (`cQuestion`, which holds a current item) a grade key is a
silent no-op — `handle_key` returns the component unchanged with
`Ok(Action::None)` — and likewise after the session is complete
(`cComplete`), rather than failing fast with a contract violation. -/
theorem C8_counterexample :
    cQuestion.state = .Question ∧
    cQuestion.handle_key (.Char '3') 0 true true true
      = (cQuestion, .ok, some .None) ∧
    cComplete.is_complete = true ∧
    cComplete.handle_key (.Char '2') 0 true true true
      = (cComplete, .ok, some .None) := by
  have hq1 : cQuestion.state = .Question := by
    unfold cQuestion
    rw [start_review_nonempty db1 .Due [(word1, log1)] (by simp)]
  have hqcur : cQuestion.current_item = some (word1, log1) := by
    unfold cQuestion
    rw [start_review_nonempty db1 .Due [(word1, log1)] (by simp)]
    simp
  have hqque : cQuestion.review_queue = [] := by
    unfold cQuestion
    rw [start_review_nonempty db1 .Due [(word1, log1)] (by simp)]
    simp
  have hcc : cComplete = cQuestion.reviewRound 3 0 := rfl
  have hstep := reviewRound_eq cQuestion word1 log1 1 hqcur rfl 3 0
  have hccur : cComplete.current_item = none := by
    rw [hcc, hstep]
    show cQuestion.review_queue.getLast? = none
    rw [hqque]
    rfl
  have hcstate : cComplete.state = .Question := by
    rw [hcc, hstep]
  refine ⟨hq1, ?_, ?_, ?_⟩
  · unfold ReviewComponent.handle_key
    rw [hq1]
    rfl
  · unfold ReviewComponent.is_complete
    rw [hccur]
    rfl
  · unfold ReviewComponent.handle_key
    rw [hcstate]
    rfl

/-- C8 (amended): `grade()` is only effective in state `Answer` with an item
being served: a grade key arriving in state `Question`, or once the session
is complete (no current item), is silently ignored — the component is
returned unchanged with `Ok(Action::None)` (or, when complete in state
`Answer`, `Ok(NavigateTo Dashboard)`) and no error is reported. At most one
item is ever current (`current_item` is a single `Option`, and `grade`
serves replacements only from the queue). -/
theorem C8_grade_outside_answer (c : ReviewComponent) (now : ℤ)
    (u a k : Bool) (ch : Char) (hch : ch = '1' ∨ ch = '2' ∨ ch = '3' ∨ ch = '4') :
    (c.state = .Question → c.handle_key (.Char ch) now u a k = (c, .ok, some .None)) ∧
    (c.state = .Answer → c.current_item = none →
      c.handle_key (.Char ch) now u a k = (c, .ok, some (.NavigateTo .Dashboard))) := by
  constructor
  · intro hstate
    unfold ReviewComponent.handle_key
    rw [hstate]
    rcases hch with h | h | h | h <;> subst h <;> rfl
  · intro hstate hnone
    unfold ReviewComponent.handle_key
    rw [hstate]
    rcases hch with h | h | h | h <;> subst h
    · exact handle_key_graded_complete c 1 now u a k hnone
    · exact handle_key_graded_complete c 2 now u a k hnone
    · exact handle_key_graded_complete c 3 now u a k hnone
    · exact handle_key_graded_complete c 4 now u a k hnone

/-- Closed witness for C8's amended theorem, at the fixtures `cQuestion`
(state `Question`) and `cComplete.show_answer` (complete, state `Answer`). -/
theorem C8_witness :
    (cQuestion.state = .Question →
      cQuestion.handle_key (.Char '3') 0 true true true
        = (cQuestion, .ok, some .None)) ∧
    (cComplete.show_answer.state = .Answer →
      cComplete.show_answer.current_item = none →
      cComplete.show_answer.handle_key (.Char '3') 0 true true true
        = (cComplete.show_answer, .ok, some (.NavigateTo .Dashboard))) :=
  ⟨(C8_grade_outside_answer cQuestion 0 true true true '3'
      (by simp)).1,
    (C8_grade_outside_answer cComplete.show_answer 0 true true true '3'
      (by simp)).2⟩

/-- C9: if the persistence step of a grade fails — the memory-state update
(`update_log`) or the history append (`add_review_history`) returns an error
— `App::submit_review` surfaces the error to the caller and the in-memory
queue is not rolled back: the graded item was already taken out of
`current_review_item` and is re-inserted nowhere, and the item is equally
gone when every persistence call succeeds (the session just moves on). -/
theorem C9_no_rollback (a : App) (w : Word) (l : LearningLog) (i : ℤ)
    (q : ℕ) (now : ℤ)
    (hcur : a.current_review_item = some (w, l)) (hid : w.id = some i) :
    ((a.submit_review q now false true).2 = .updateFailed ∧
      (a.submit_review q now false true).1.current_review_item = none ∧
      (a.submit_review q now false true).1.review_queue = a.review_queue) ∧
    ((a.submit_review q now true false).2 = .appendFailed ∧
      (a.submit_review q now true false).1.current_review_item = none ∧
      (a.submit_review q now true false).1.review_queue = a.review_queue) ∧
    ((a.submit_review q now true true).2 = .ok ∧
      (a.submit_review q now true true).1.current_review_item
        = a.review_queue.getLast? ∧
      (a.submit_review q now true true).1.review_queue = a.review_queue.dropLast) := by
  refine ⟨?_, ?_, ?_⟩ <;>
    simp [App.submit_review, App.next_review_card, App.refresh_stats, hcur, hid] <;>
    split <;>
    simp

/-- Closed witness for C9 at the fixture `app1` (serving `(word1, log1)`). -/
theorem C9_witness :
    (app1.current_review_item = some (word1, log1) ∧ word1.id = some 1) ∧
    (((app1.submit_review 3 0 false true).2 = .updateFailed ∧
        (app1.submit_review 3 0 false true).1.current_review_item = none ∧
        (app1.submit_review 3 0 false true).1.review_queue = app1.review_queue) ∧
      ((app1.submit_review 3 0 true false).2 = .appendFailed ∧
        (app1.submit_review 3 0 true false).1.current_review_item = none ∧
        (app1.submit_review 3 0 true false).1.review_queue = app1.review_queue) ∧
      ((app1.submit_review 3 0 true true).2 = .ok ∧
        (app1.submit_review 3 0 true true).1.current_review_item
          = app1.review_queue.getLast? ∧
        (app1.submit_review 3 0 true true).1.review_queue
          = app1.review_queue.dropLast)) :=
  ⟨⟨rfl, rfl⟩, C9_no_rollback app1 word1 log1 1 3 0 rfl rfl⟩

end LexRain
